import Mathlib

/-!
Formal model of the digitalocean-dyn-dns tool (Rust), covering the paginated
collection traversals of src/digitalocean/api.rs, the DNS and firewall client
implementations of src/digitalocean/dns.rs and src/digitalocean/firewall.rs,
and the reconciliation logic of src/main.rs (run_dns, build_firewall_args,
update_firewall, names_to_ids).

Modelling conventions:
- Rust Result is Except; a Rust panic (panic!/expect/unwrap_or_else) is the
  distinct abort outcome Abort.panicked, which propagates like an error since
  a panic unwinds the whole run.
- Machine integers (u16/u32) only ever flow through the model inertly, so they
  are Nat.
- Client traits are structures of functions. Reads (GET) take the backend
  state and return a result; mutations also return the successor state. Each
  embedded function additionally returns the list of client/HTTP calls it
  performed, in order, so that temporal claims about call sequences can be
  stated.
- std::net::IpAddr is modelled as an IPv4 address (four octets); none of the
  verified properties depend on IPv6 textual forms.
-/

/-- Error enum of src/digitalocean/error.rs. Request wraps a transport error
(reqwest::Error), reduced to a message; IpParse wraps AddrParseError. -/
inductive DoError where
  | Request (msg : String)
  | IpParse
  | UpdateDns (msg : String)
  | CreateDns (msg : String)
  | DeleteFirewallRule (msg : String)
  | CreateFirewallRule (msg : String)
deriving DecidableEq, Repr

/-- Error enum of src/main.rs. -/
inductive MainError where
  | Client (e : DoError)
  | AddrParseErr
  | DomainNotFound
  | FirewallNotFound
deriving DecidableEq, Repr

/-- Outcome of a fallible Rust computation that may also panic: `failure e`
is Err(e), `panicked msg` is an unwinding panic with the given message. -/
inductive Abort (ε : Type) where
  | failure (e : ε)
  | panicked (msg : String)
deriving DecidableEq, Repr

/-- Lift of the From<digitalocean::error::Error> conversion in src/main.rs
to aborting computations (panics pass through unchanged). -/
def liftAbort {α : Type} : Except (Abort DoError) α → Except (Abort MainError) α
  | .error (.failure e) => .error (.failure (.Client e))
  | .error (.panicked m) => .error (.panicked m)
  | .ok a => .ok a

/-- std::net::IpAddr, modelled as an IPv4 address (four octets). -/
structure IpAddr where
  o1 : Nat
  o2 : Nat
  o3 : Nat
  o4 : Nat
deriving DecidableEq, Repr

/-- Display form of an IpAddr, as produced by ip.to_string() in Rust. -/
def ipToString (ip : IpAddr) : String :=
  Nat.repr ip.o1 ++ "." ++ Nat.repr ip.o2 ++ "." ++ Nat.repr ip.o3 ++ "." ++ Nat.repr ip.o4

/-- Split a character list on the dot separator (the groups of
"a.b.c.d".split('.')); an empty input yields one empty group. -/
def splitDots : List Char → List (List Char)
  | [] => [[]]
  | c :: rest =>
    if c = ('.') then [] :: splitDots rest
    else
      match splitDots rest with
      | [] => [[c]]
      | g :: gs => (c :: g) :: gs

/-- Accumulate decimal digits; any non-digit character fails. -/
def digitsToNat : List Char → Nat → Option Nat
  | [], acc => some acc
  | c :: cs, acc =>
    if c.isDigit then digitsToNat cs (acc * 10 + (c.toNat - 48))
    else none

/-- Parse one dotted-decimal octet: nonempty, digits only, no leading zero,
value at most 255 (mirroring Rust's Ipv4Addr component parser). -/
def parseOctet : List Char → Option Nat
  | [] => none
  | c :: rest =>
    if c = ('0') ∧ rest ≠ [] then none
    else
      match digitsToNat (c :: rest) 0 with
      | some n => if n ≤ 255 then some n else none
      | none => none

/-- Embedding of "a.b.c.d".parse::<IpAddr>() restricted to IPv4. -/
def parseIp (s : String) : Option IpAddr :=
  match splitDots s.toList with
  | [a, b, c, d] =>
    match parseOctet a, parseOctet b, parseOctet c, parseOctet d with
    | some x1, some x2, some x3, some x4 => some ⟨x1, x2, x3, x4⟩
    | _, _, _, _ => none
  | _ => none

/-- Pages struct of src/digitalocean/api.rs. -/
structure Pages where
  first : Option String
  prev : Option String
  next : Option String
  last : Option String
deriving DecidableEq, Repr

/-- Links struct of src/digitalocean/api.rs. -/
structure Links where
  pages : Option Pages
deriving DecidableEq, Repr

/-- The `links.pages.is_some() && links.pages.unwrap().next.is_some()`
check plus extraction in api.rs, as one partial lookup. -/
def nextUrl (links : Links) : Option String :=
  match links.pages with
  | some p => p.next
  | none => none

/-- Loop body of DigitalOceanApiClient::get_all_objects (api.rs lines 41-71),
with the network abstracted as `fetch` (send + JSON-decode of one page) and an
explicit fuel bound for the unbounded while-loop; `none` means the fuel ran
out before the loop exited. Returns the list of URLs fetched, in order, with
the result. -/
def get_all_objects_go {R T : Type} (fetch : String → Except DoError R)
    (value_extractor : R → List T) (link_extractor : R → Links) :
    Nat → String → List T → Option (List String × Except DoError (List T))
  | 0, _, _ => none
  | Nat.succ fuel, url, objects =>
    match fetch url with
    | .error e => some ([url], .error e)
    | .ok resp =>
      let links := link_extractor resp
      let objects2 := objects ++ value_extractor resp
      match nextUrl links with
      | some url2 =>
        (get_all_objects_go fetch value_extractor link_extractor fuel url2 objects2).map
          (fun p => (url :: p.1, p.2))
      | none => some ([url], .ok objects2)

/-- DigitalOceanApiClient::get_all_objects with its initial empty accumulator. -/
def get_all_objects {R T : Type} (fetch : String → Except DoError R)
    (value_extractor : R → List T) (link_extractor : R → Links)
    (fuel : Nat) (url : String) : Option (List String × Except DoError (List T)) :=
  get_all_objects_go fetch value_extractor link_extractor fuel url []

/-- DigitalOceanApiClient::get_object_by_name (api.rs lines 73-110): fetch a
page, look for the first item accepted by name_checker, stop on a match, else
follow the next link; absent next link means not found. -/
def get_object_by_name {R T : Type} (fetch : String → Except DoError R)
    (value_extractor : R → List T) (link_extractor : R → Links)
    (name_checker : T → String → Bool) (name : String) :
    Nat → String → Option (List String × Except DoError (Option T))
  | 0, _ => none
  | Nat.succ fuel, url =>
    match fetch url with
    | .error e => some ([url], .error e)
    | .ok resp =>
      match (value_extractor resp).find? (fun v => name_checker v name) with
      | some o => some ([url], .ok (some o))
      | none =>
        match nextUrl (link_extractor resp) with
        | some url2 =>
          (get_object_by_name fetch value_extractor link_extractor name_checker name fuel url2).map
            (fun p => (url :: p.1, p.2))
        | none => some ([url], .ok none)

/-- A server presents an N-page collection starting at a URL: each page
fetches successfully, each page links to the next page's URL, and the final
page has no next link. This is the page-chain environment over which the
traversal claims quantify. -/
inductive PageChain {R : Type} (fetch : String → Except DoError R)
    (link_extractor : R → Links) : String → List R → Prop where
  | last (url : String) (r : R) :
      fetch url = .ok r → nextUrl (link_extractor r) = none →
      PageChain fetch link_extractor url [r]
  | cons (url : String) (r : R) (url2 : String) (rs : List R) :
      fetch url = .ok r → nextUrl (link_extractor r) = some url2 →
      PageChain fetch link_extractor url2 rs →
      PageChain fetch link_extractor url (r :: rs)

/-- URLs of the successive pages of a chain, starting from the given URL and
following each page's next link. -/
def chainUrls {R : Type} (link_extractor : R → Links) : String → List R → List String
  | _, [] => []
  | url, r :: rs =>
    match nextUrl (link_extractor r) with
    | some url2 => url :: chainUrls link_extractor url2 rs
    | none => url :: []

/-- Domain struct of src/digitalocean/dns.rs. -/
structure Domain where
  name : String
  ttl : Nat
  zone_file : String
deriving DecidableEq, Repr

/-- DomainRecord struct of src/digitalocean/dns.rs. -/
structure DomainRecord where
  id : Nat
  typ : String
  name : String
  data : String
  priority : Option Nat
  port : Option Nat
  ttl : Nat
  weight : Option Nat
  flags : Option Nat
  tag : Option String
deriving DecidableEq, Repr

/-- DomainRecordsModifyResp struct of src/digitalocean/dns.rs (decoded body of
a PUT/POST response). -/
structure DomainRecordsModifyResp where
  domain_record : DomainRecord
deriving DecidableEq, Repr

/-- DomainRecordPutBody struct of src/digitalocean/dns.rs: the PUT body
serializes only the data field. -/
structure DomainRecordPutBody where
  data : String
deriving DecidableEq, Repr

/-- DomainRecordPostBody struct of src/digitalocean/dns.rs. -/
structure DomainRecordPostBody where
  typ : String
  name : String
  data : String
  priority : Option Nat
  port : Option Nat
  ttl : Nat
  weight : Option Nat
  flags : Option Nat
  tag : Option String
deriving DecidableEq, Repr

/-- One HTTP mutation request that the DNS client can send. -/
inductive DnsHttpCall where
  | put (url : String) (body : DomainRecordPutBody)
  | post (url : String) (body : DomainRecordPostBody)
deriving DecidableEq, Repr

/-- DigitalOceanApiClient::get_url against the production base URL. -/
def get_url (endpoint : String) : String :=
  "https://api.digitalocean.com" ++ endpoint

/-- Placeholder record returned by the dry-run branches of update_record and
create_record in src/digitalocean/dns.rs: every field zero/empty except the
requested ttl. -/
def dryRunRecord (ttl : Nat) : DomainRecord :=
  { id := 0, typ := "", name := "", data := "", priority := none, port := none,
    ttl := ttl, weight := none, flags := none, tag := none }

namespace DigitalOceanDnsClientImpl

/-- DigitalOceanDnsClientImpl::update_record (dns.rs lines 96-141), with the
HTTP transport (send + JSON-decode) abstracted as `transport`. Also returns
the list of HTTP mutation requests sent. -/
def update_record (transport : DnsHttpCall → Except DoError DomainRecordsModifyResp)
    (domain : String) (record : DomainRecord) (value : IpAddr) (ttl : Nat)
    (dry_run : Bool) : Except DoError DomainRecord × List DnsHttpCall :=
  if dry_run then
    (.ok (dryRunRecord ttl), [])
  else
    let url := get_url ("/v2/domains/" ++ domain ++ "/records/" ++ Nat.repr record.id)
    let call := DnsHttpCall.put url { data := ipToString value }
    match transport call with
    | .error e => (.error e, [call])
    | .ok resp =>
      match parseIp resp.domain_record.data with
      | none => (.error .IpParse, [call])
      | some echoed =>
        if echoed = value then
          (.ok resp.domain_record, [call])
        else
          (.error (.UpdateDns ("New IP address not reflected in updated DNS record")), [call])

/-- DigitalOceanDnsClientImpl::create_record (dns.rs lines 144-198). Note the
POST body's ttl field is the literal 60 from the source, not the ttl
argument. -/
def create_record (transport : DnsHttpCall → Except DoError DomainRecordsModifyResp)
    (domain : String) (record : String) (rtype : String) (value : IpAddr) (ttl : Nat)
    (dry_run : Bool) : Except DoError DomainRecord × List DnsHttpCall :=
  if dry_run then
    (.ok (dryRunRecord ttl), [])
  else
    let url := get_url ("/v2/domains/" ++ domain ++ "/records")
    let call := DnsHttpCall.post url
      { typ := rtype, name := record, data := ipToString value, priority := none,
        port := none, ttl := 60, weight := none, flags := none, tag := none }
    match transport call with
    | .error e => (.error e, [call])
    | .ok resp =>
      match parseIp resp.domain_record.data with
      | none => (.error .IpParse, [call])
      | some echoed =>
        if echoed = value then
          (.ok resp.domain_record, [call])
        else
          (.error (.CreateDns ("New IP address not reflected in new DNS record")), [call])

end DigitalOceanDnsClientImpl

/-- FirewallPendingChange struct of src/digitalocean/firewall.rs. -/
structure FirewallPendingChange where
  droplet_id : Nat
  removing : Bool
  status : String
deriving DecidableEq, Repr

/-- FirewallRuleTarget struct of src/digitalocean/firewall.rs. Each selector
set is optional; an absent selector is omitted from the serialized body. -/
structure FirewallRuleTarget where
  addresses : Option (List String)
  droplet_ids : Option (List Nat)
  load_balancer_uids : Option (List String)
  kubernetes_ids : Option (List String)
  tags : Option (List String)
deriving DecidableEq, Repr

/-- FirewallInboundRule struct of src/digitalocean/firewall.rs. -/
structure FirewallInboundRule where
  protocol : String
  ports : String
  sources : FirewallRuleTarget
deriving DecidableEq, Repr

/-- FirewallOutboundRule struct of src/digitalocean/firewall.rs. -/
structure FirewallOutboundRule where
  protocol : String
  ports : String
  destinations : FirewallRuleTarget
deriving DecidableEq, Repr

/-- Firewall struct of src/digitalocean/firewall.rs. -/
structure Firewall where
  id : String
  status : String
  created_at : String
  pending_changes : List FirewallPendingChange
  name : String
  droplet_ids : Option (List Nat)
  tags : Option (List String)
  inbound_rules : Option (List FirewallInboundRule)
  outbound_rules : Option (List FirewallOutboundRule)
deriving DecidableEq, Repr

/-- FirewallRuleBody struct of src/digitalocean/firewall.rs: the DELETE/POST
body; a none slot is omitted from serialization, not sent as an empty array. -/
structure FirewallRuleBody where
  inbound_rules : Option (List FirewallInboundRule)
  outbound_rules : Option (List FirewallOutboundRule)
deriving DecidableEq, Repr

/-- ErrorResponse struct of src/digitalocean/api.rs. -/
structure ErrorResponse where
  id : String
  message : String
  request_id : Option String
deriving DecidableEq, Repr

/-- One HTTP request to the shared /v2/firewalls/\x7bid\x7d/rules endpoint. -/
inductive FwHttpCall where
  | delete (url : String) (body : FirewallRuleBody)
  | post (url : String) (body : FirewallRuleBody)
deriving DecidableEq, Repr

/-- Response to a firewall rule mutation: an HTTP status plus, for non-204
statuses, the attempt to decode the body as an ErrorResponse. -/
structure FwHttpResponse where
  status : Nat
  body : Except DoError ErrorResponse

namespace DigitalOceanFirewallClientImpl

/-- DigitalOceanFirewallClientImpl::delete_firewall_rule (firewall.rs lines
50-87). Success is exactly HTTP 204; any other status decodes an
ErrorResponse and wraps it in DeleteFirewallRule. -/
def delete_firewall_rule (transport : FwHttpCall → Except DoError FwHttpResponse)
    (id : String) (inbound_rules : Option (List FirewallInboundRule))
    (outbound_rules : Option (List FirewallOutboundRule)) (dry_run : Bool) :
    Except DoError Unit × List FwHttpCall :=
  if dry_run then
    (.ok (), [])
  else
    let url := get_url ("/v2/firewalls/" ++ id ++ "/rules")
    let call := FwHttpCall.delete url
      { inbound_rules := inbound_rules, outbound_rules := outbound_rules }
    match transport call with
    | .error e => (.error e, [call])
    | .ok resp =>
      if resp.status = 204 then
        (.ok (), [call])
      else
        match resp.body with
        | .error e => (.error e, [call])
        | .ok err =>
          (.error (.DeleteFirewallRule
            ("Got unexpected HTTP error from API (" ++ Nat.repr resp.status ++ "): " ++ err.message)), [call])

/-- DigitalOceanFirewallClientImpl::add_firewall_rule (firewall.rs lines
91-128). -/
def add_firewall_rule (transport : FwHttpCall → Except DoError FwHttpResponse)
    (id : String) (inbound_rules : Option (List FirewallInboundRule))
    (outbound_rules : Option (List FirewallOutboundRule)) (dry_run : Bool) :
    Except DoError Unit × List FwHttpCall :=
  if dry_run then
    (.ok (), [])
  else
    let url := get_url ("/v2/firewalls/" ++ id ++ "/rules")
    let call := FwHttpCall.post url
      { inbound_rules := inbound_rules, outbound_rules := outbound_rules }
    match transport call with
    | .error e => (.error e, [call])
    | .ok resp =>
      if resp.status = 204 then
        (.ok (), [call])
      else
        match resp.body with
        | .error e => (.error e, [call])
        | .ok err =>
          (.error (.CreateFirewallRule
            ("Got unexpected HTTP error from API (" ++ Nat.repr resp.status ++ "): " ++ err.message)), [call])

end DigitalOceanFirewallClientImpl

/-- DNS client trait of src/digitalocean/dns.rs, abstracted over the backend
state σ. GET operations read the state; PUT/POST operations may also advance
it. -/
structure DigitalOceanDnsClient (σ : Type) where
  get_domain : String → σ → Except DoError (Option Domain)
  get_record : String → String → String → σ → Except DoError (Option DomainRecord)
  update_record : String → DomainRecord → IpAddr → Nat → Bool → σ → Except DoError DomainRecord × σ
  create_record : String → String → String → IpAddr → Nat → Bool → σ → Except DoError DomainRecord × σ

/-- One invocation of a DNS client trait method, as recorded in a trace. -/
inductive DnsCall where
  | getDomain (domain : String)
  | getRecord (domain : String) (record : String) (rtype : String)
  | updateRecord (domain : String) (record : DomainRecord) (ip : IpAddr) (ttl : Nat) (dry : Bool)
  | createRecord (domain : String) (record : String) (rtype : String) (ip : IpAddr) (ttl : Nat) (dry : Bool)
deriving DecidableEq, Repr

/-- Mutating DNS client calls are update_record and create_record; get_domain
and get_record are reads. -/
def isMutatingDnsCall : DnsCall → Bool
  | .updateRecord _ _ _ _ _ => true
  | .createRecord _ _ _ _ _ _ => true
  | _ => false

/-- run_dns of src/main.rs (lines 105-145): locate the domain (absent is
DomainNotFound), locate the record; present with equal IP returns it
unchanged, present with different IP updates, absent creates. Returns the
outcome, the final backend state, and the ordered client call trace. -/
def run_dns {σ : Type} (client : DigitalOceanDnsClient σ) (domain : String)
    (record_name : String) (rtype : String) (ip : IpAddr) (ttl : Nat)
    (dry_run : Bool) (s : σ) : Except MainError DomainRecord × σ × List DnsCall :=
  match client.get_domain domain s with
  | .error e => (.error (.Client e), s, [.getDomain domain])
  | .ok none => (.error .DomainNotFound, s, [.getDomain domain])
  | .ok (some _) =>
    match client.get_record domain record_name rtype s with
    | .error e =>
      (.error (.Client e), s, [.getDomain domain, .getRecord domain record_name rtype])
    | .ok (some record) =>
      match parseIp record.data with
      | none =>
        (.error .AddrParseErr, s, [.getDomain domain, .getRecord domain record_name rtype])
      | some record_ip =>
        if record_ip = ip then
          (.ok record, s, [.getDomain domain, .getRecord domain record_name rtype])
        else
          match client.update_record domain record ip ttl dry_run s with
          | (.error e, s1) =>
            (.error (.Client e), s1,
              [.getDomain domain, .getRecord domain record_name rtype,
               .updateRecord domain record ip ttl dry_run])
          | (.ok r, s1) =>
            (.ok r, s1,
              [.getDomain domain, .getRecord domain record_name rtype,
               .updateRecord domain record ip ttl dry_run])
    | .ok none =>
      match client.create_record domain record_name rtype ip ttl dry_run s with
      | (.error e, s1) =>
        (.error (.Client e), s1,
          [.getDomain domain, .getRecord domain record_name rtype,
           .createRecord domain record_name rtype ip ttl dry_run])
      | (.ok r, s1) =>
        (.ok r, s1,
          [.getDomain domain, .getRecord domain record_name rtype,
           .createRecord domain record_name rtype ip ttl dry_run])

/-- Firewall client trait of src/digitalocean/firewall.rs, abstracted over
the backend state σ. -/
structure DigitalOceanFirewallClient (σ : Type) where
  get_firewall : String → σ → Except DoError (Option Firewall)
  delete_firewall_rule : String → Option (List FirewallInboundRule) →
    Option (List FirewallOutboundRule) → Bool → σ → Except DoError Unit × σ
  add_firewall_rule : String → Option (List FirewallInboundRule) →
    Option (List FirewallOutboundRule) → Bool → σ → Except DoError Unit × σ

/-- One invocation of a firewall client trait method, as recorded in a trace. -/
inductive FwCall where
  | getFirewall (name : String)
  | deleteRule (id : String) (inbound : Option (List FirewallInboundRule))
      (outbound : Option (List FirewallOutboundRule)) (dry : Bool)
  | addRule (id : String) (inbound : Option (List FirewallInboundRule))
      (outbound : Option (List FirewallOutboundRule)) (dry : Bool)
deriving DecidableEq, Repr

/-- Mutating firewall client calls are delete_firewall_rule and
add_firewall_rule; get_firewall is a read. -/
def isMutatingFwCall : FwCall → Bool
  | .deleteRule _ _ _ _ => true
  | .addRule _ _ _ _ => true
  | _ => false

/-- update_firewall of src/main.rs (lines 271-326): wrap each supplied
replacement pair into a singleton array for its direction (the other slot
stays absent), delete the old rule, add the new rule, then re-fetch the
firewall by name; a missing firewall after mutation is the expect panic. -/
def update_firewall {σ : Type} (fw_client : DigitalOceanFirewallClient σ)
    (firewall : Firewall)
    (inbound_rule_replacement : Option (FirewallInboundRule × FirewallInboundRule))
    (outbound_rule_replacement : Option (FirewallOutboundRule × FirewallOutboundRule))
    (dry_run : Bool) (s : σ) :
    Except (Abort MainError) Firewall × σ × List FwCall :=
  let inbound_rule := inbound_rule_replacement.map (fun p => [p.1])
  let new_inbound_rule := inbound_rule_replacement.map (fun p => [p.2])
  let outbound_rule := outbound_rule_replacement.map (fun p => [p.1])
  let new_outbound_rule := outbound_rule_replacement.map (fun p => [p.2])
  match fw_client.delete_firewall_rule firewall.id inbound_rule outbound_rule dry_run s with
  | (.error e, s1) =>
    (.error (.failure (.Client e)), s1,
      [.deleteRule firewall.id inbound_rule outbound_rule dry_run])
  | (.ok _, s1) =>
    match fw_client.add_firewall_rule firewall.id new_inbound_rule new_outbound_rule dry_run s1 with
    | (.error e, s2) =>
      (.error (.failure (.Client e)), s2,
        [.deleteRule firewall.id inbound_rule outbound_rule dry_run,
         .addRule firewall.id new_inbound_rule new_outbound_rule dry_run])
    | (.ok _, s2) =>
      match fw_client.get_firewall firewall.name s2 with
      | .error e =>
        (.error (.failure (.Client e)), s2,
          [.deleteRule firewall.id inbound_rule outbound_rule dry_run,
           .addRule firewall.id new_inbound_rule new_outbound_rule dry_run,
           .getFirewall firewall.name])
      | .ok none =>
        (.error (.panicked ("Unable to find firewall after modifying!")), s2,
          [.deleteRule firewall.id inbound_rule outbound_rule dry_run,
           .addRule firewall.id new_inbound_rule new_outbound_rule dry_run,
           .getFirewall firewall.name])
      | .ok (some updated_firewall) =>
        (.ok updated_firewall, s2,
          [.deleteRule firewall.id inbound_rule outbound_rule dry_run,
           .addRule firewall.id new_inbound_rule new_outbound_rule dry_run,
           .getFirewall firewall.name])

/-- Droplet of src/digitalocean/droplet.rs: only name and id are ever read by
the reconciler; the remaining wire fields are inert payload and omitted. -/
structure Droplet where
  id : Nat
  name : String
deriving DecidableEq, Repr

/-- KubernetesCluster of src/digitalocean/kubernetes.rs (behaviorally, a
name to id pair). -/
structure KubernetesCluster where
  id : String
  name : String
deriving DecidableEq, Repr

/-- Loadbalancer of src/digitalocean/loadbalancer.rs (behaviorally, a name to
id pair). -/
structure Loadbalancer where
  id : String
  name : String
deriving DecidableEq, Repr

/-- Lookup in the name-to-object HashMap that names_to_ids builds with
collect::<HashMap<N, T>>: on duplicate names the last inserted object wins,
so the lookup finds the last object in iteration order bearing the name. -/
def byNameLookup {N T : Type} [DecidableEq N] (extract_name : T → N)
    (objects : List T) (n : N) : Option T :=
  objects.reverse.find? (fun d => decide (extract_name d = n))

/-- The in-order name resolution inside names_to_ids: each requested name is
looked up in the map; the first missing name panics with the message from
src/main.rs line 350, so no partial id list ever escapes. -/
def resolveNames {K N T : Type} [ToString N] (by_name : N → Option T)
    (extract_key : T → K) : List N → Except (Abort DoError) (List K)
  | [] => .ok []
  | n :: ns =>
    match by_name n with
    | some d => (resolveNames by_name extract_key ns).map (fun ks => extract_key d :: ks)
    | none => .error (.panicked ("Unable to find object with name " ++ toString n))

/-- names_to_ids of src/main.rs (lines 328-356): absent names short-circuit
to Ok(None) without invoking get_objects; otherwise the collection is fetched
once, a last-write-wins name map is built, and every name is resolved in
request order. -/
def names_to_ids {K N T : Type} [DecidableEq N] [ToString N]
    (get_objects : Unit → Except DoError (List T)) (names : Option (List N))
    (extract_name : T → N) (extract_key : T → K) :
    Except (Abort DoError) (Option (List K)) :=
  match names with
  | none => .ok none
  | some ns =>
    match get_objects () with
    | .error e => .error (.failure e)
    | .ok objects =>
      (resolveNames (byNameLookup extract_name objects) extract_key ns).map some

/-- The all_addresses block of build_firewall_args (main.rs lines 172-182):
start from the caller-supplied addresses (empty when absent) and push the
current IP's rendering only when the list does not already contain it;
duplicates already present in the caller-supplied list are left as they are. -/
def newAddresses (addresses : Option (List String)) (ip : IpAddr) : List String :=
  let base := match addresses with
    | some x => x
    | none => []
  let ip_str := ipToString ip
  if base.contains ip_str then base else base ++ [ip_str]

/-- Direction enum of src/cli.rs. -/
inductive Direction where
  | Inbound
  | Outbound
deriving DecidableEq, Repr

/-- build_firewall_args of src/main.rs (lines 148-269): fetch the firewall by
name (absent is FirewallNotFound), extend the caller addresses with the
current IP unless already present, resolve the three optional name lists to
ids, find the rule keyed by (ports, protocol) in the requested direction
(missing direction array or no match panics), and build the replacement rule
carrying the old protocol/ports/tags with the new target selectors. -/
def build_firewall_args
    (get_firewall : String → Except DoError (Option Firewall))
    (get_droplets : Unit → Except DoError (List Droplet))
    (get_kubernetes_clusters : Unit → Except DoError (List KubernetesCluster))
    (get_load_balancers : Unit → Except DoError (List Loadbalancer))
    (name : String) (direction : Direction) (port : String) (protocol : String)
    (addresses : Option (List String))
    (droplet_names : Option (List String))
    (kubernetes_cluster_names : Option (List String))
    (load_balancer_names : Option (List String))
    (ip : IpAddr) :
    Except (Abort MainError)
      (Firewall × Option (FirewallInboundRule × FirewallInboundRule) ×
        Option (FirewallOutboundRule × FirewallOutboundRule)) :=
  match get_firewall name with
  | .error e => .error (.failure (.Client e))
  | .ok none => .error (.failure .FirewallNotFound)
  | .ok (some firewall) =>
    let all_addresses : Option (List String) := some (newAddresses addresses ip)
    match liftAbort (names_to_ids get_droplets droplet_names Droplet.name Droplet.id) with
    | .error a => .error a
    | .ok droplet_ids =>
      match liftAbort (names_to_ids get_kubernetes_clusters kubernetes_cluster_names
          KubernetesCluster.name KubernetesCluster.id) with
      | .error a => .error a
      | .ok kubernetes_cluster_ids =>
        match liftAbort (names_to_ids get_load_balancers load_balancer_names
            Loadbalancer.name Loadbalancer.id) with
        | .error a => .error a
        | .ok load_balancer_ids =>
          match direction with
          | .Inbound =>
            match firewall.inbound_rules with
            | none => .error (.panicked ("No inbound_rules available"))
            | some rules =>
              match rules.find? (fun x => x.ports == port && x.protocol == protocol) with
              | none =>
                .error (.panicked ("Unable to find firewall rule for port " ++ port ++
                  " and protocol " ++ protocol))
              | some inbound_rule =>
                let new_inbound_rule : FirewallInboundRule :=
                  { protocol := inbound_rule.protocol,
                    ports := inbound_rule.ports,
                    sources :=
                      { addresses := all_addresses,
                        droplet_ids := droplet_ids,
                        kubernetes_ids := kubernetes_cluster_ids,
                        load_balancer_uids := load_balancer_ids,
                        tags := inbound_rule.sources.tags } }
                .ok (firewall, some (inbound_rule, new_inbound_rule), none)
          | .Outbound =>
            match firewall.outbound_rules with
            | none => .error (.panicked ("No outbound_rules available"))
            | some rules =>
              match rules.find? (fun x => x.ports == port && x.protocol == protocol) with
              | none =>
                .error (.panicked ("Unable to find firewall rule for port " ++ port ++
                  " and protocol " ++ protocol))
              | some outbound_rule =>
                let new_outbound_rule : FirewallOutboundRule :=
                  { protocol := outbound_rule.protocol,
                    ports := outbound_rule.ports,
                    destinations :=
                      { addresses := all_addresses,
                        droplet_ids := droplet_ids,
                        kubernetes_ids := kubernetes_cluster_ids,
                        load_balancer_uids := load_balancer_ids,
                        tags := outbound_rule.destinations.tags } }
                .ok (firewall, none, some (outbound_rule, new_outbound_rule))

/-- Firewall path of main() in src/main.rs: build_firewall_args followed, on
success only, by update_firewall (a failed build aborts the process via
expect, so no mutating firewall call is ever issued). -/
def main_firewall {σ : Type} (fw_client : DigitalOceanFirewallClient σ)
    (get_droplets : Unit → Except DoError (List Droplet))
    (get_kubernetes_clusters : Unit → Except DoError (List KubernetesCluster))
    (get_load_balancers : Unit → Except DoError (List Loadbalancer))
    (name : String) (direction : Direction) (port : String) (protocol : String)
    (addresses : Option (List String))
    (droplet_names : Option (List String))
    (kubernetes_cluster_names : Option (List String))
    (load_balancer_names : Option (List String))
    (ip : IpAddr) (dry_run : Bool) (s : σ) :
    Except (Abort MainError) Firewall × σ × List FwCall :=
  match build_firewall_args (fun n => fw_client.get_firewall n s) get_droplets
      get_kubernetes_clusters get_load_balancers name direction port protocol
      addresses droplet_names kubernetes_cluster_names load_balancer_names ip with
  | .error a => (.error a, s, [])
  | .ok (firewall, inbound_rule_replacement, outbound_rule_replacement) =>
    update_firewall fw_client firewall inbound_rule_replacement
      outbound_rule_replacement dry_run s

/-- Mock per-page response shape used to exercise the generic traversals on
concrete servers (plays the role of DropletsResp etc. in the source's tests). -/
structure MockResp where
  items : List Nat
  links : Links
deriving DecidableEq, Repr

/-- First page of a two-page mock collection: items [1, 2], next link to p2. -/
def page1Fix : MockResp :=
  { items := [1, 2],
    links := { pages := some { first := none, prev := none, next := some ("p2"), last := none } } }

/-- Second page of the mock collection: item [3], no next link. -/
def page2Fix : MockResp :=
  { items := [3], links := { pages := none } }

/-- Mock server holding the two-page collection at p1 -> p2. -/
def fetchPagesFix : String → Except DoError MockResp :=
  fun url =>
    if url = "p1" then .ok page1Fix
    else if url = "p2" then .ok page2Fix
    else .error (.Request ("missing page"))

/-- Mock server whose collection is a single empty page with no next link. -/
def emptyPageFix : MockResp :=
  { items := [], links := { pages := none } }

/-- Mock server for the empty collection. -/
def fetchEmptyFix : String → Except DoError MockResp :=
  fun url =>
    if url = "e1" then .ok emptyPageFix
    else .error (.Request ("missing page"))

/-- Current inbound rule used by the concrete firewall scenarios (mirrors the
rule in the source's fw_test module). -/
def fwRuleFix : FirewallInboundRule :=
  { protocol := "http", ports := "80",
    sources := { addresses := none, droplet_ids := none, load_balancer_uids := none,
                 kubernetes_ids := none, tags := none } }

/-- Replacement inbound rule for the concrete firewall scenarios. -/
def fwNewRuleFix : FirewallInboundRule :=
  { protocol := "http", ports := "80",
    sources := { addresses := some [("1.1.1.1")], droplet_ids := none,
                 load_balancer_uids := none, kubernetes_ids := none, tags := none } }

/-- Concrete firewall holding fwRuleFix as its only inbound rule. -/
def fwFix : Firewall :=
  { id := "foo", status := "", created_at := "", pending_changes := [], name := "Foo",
    droplet_ids := none, tags := none, inbound_rules := some [fwRuleFix],
    outbound_rules := none }

/-- Stateless firewall backend on which every call succeeds. -/
def fwClientOkFix : DigitalOceanFirewallClient Unit :=
  { get_firewall := fun _ _ => .ok (some fwFix),
    delete_firewall_rule := fun _ _ _ _ s => (.ok (), s),
    add_firewall_rule := fun _ _ _ _ s => (.ok (), s) }

/-- Firewall backend whose add_firewall_rule fails after a successful delete. -/
def fwClientAddFailsFix : DigitalOceanFirewallClient Unit :=
  { get_firewall := fun _ _ => .ok (some fwFix),
    delete_firewall_rule := fun _ _ _ _ s => (.ok (), s),
    add_firewall_rule := fun _ _ _ _ s => (.error (.CreateFirewallRule ("test")), s) }

/-- Domain fixture for the DNS scenarios. -/
def dnsDomainFix : Domain :=
  { name := "example.com", ttl := 1800, zone_file := "" }

/-- Record fixture parameterized by its data payload. -/
def dnsRecordOf (data : String) : DomainRecord :=
  { id := 234, typ := "A", name := "www", data := data, priority := none, port := none,
    ttl := 60, weight := none, flags := none, tag := none }

/-- Faithful single-record DNS backend: the state is the stored record's data
(none means no record); updates and creates store the written IP's rendering,
so reads after a write observe it. -/
def dnsBackendFix : DigitalOceanDnsClient (Option String) :=
  { get_domain := fun _ _ => .ok (some dnsDomainFix),
    get_record := fun _ _ _ s => .ok (s.map (fun d => dnsRecordOf d)),
    update_record := fun _ record ip _ _ _ =>
      (.ok { record with data := ipToString ip }, some (ipToString ip)),
    create_record := fun _ record rtype ip _ _ _ =>
      (.ok { id := 234, typ := rtype, name := record, data := ipToString ip,
             priority := none, port := none, ttl := 60, weight := none, flags := none,
             tag := none }, some (ipToString ip)) }

/-- DNS backend that controls no domain at all. -/
def dnsNoDomainFix : DigitalOceanDnsClient (Option String) :=
  { get_domain := fun _ _ => .ok none,
    get_record := fun _ _ _ _ => .ok none,
    update_record := fun _ record _ _ _ s => (.ok record, s),
    create_record := fun _ _ _ _ _ _ s => (.ok (dnsRecordOf ("")), s) }

/-- Droplet listing fixture with two named droplets. -/
def dropletsFix : Unit → Except DoError (List Droplet) :=
  fun _ => .ok [⟨1, "a"⟩, ⟨2, "b"⟩]

/-- Droplet listing whose fetch always fails with a transport error. -/
def failDropletsFix : Unit → Except DoError (List Droplet) :=
  fun _ => .error (.Request ("boom"))

/-- Empty kubernetes cluster listing. -/
def noKubeFix : Unit → Except DoError (List KubernetesCluster) :=
  fun _ => .ok []

/-- Empty load balancer listing. -/
def noLbFix : Unit → Except DoError (List Loadbalancer) :=
  fun _ => .ok []

/-- Empty droplet listing. -/
def noDropletsFix : Unit → Except DoError (List Droplet) :=
  fun _ => .ok []

/-- Existing (tcp, 443) inbound rule used by the build_firewall_args
scenarios. -/
def cexRuleFix : FirewallInboundRule :=
  { protocol := "tcp", ports := "443",
    sources := { addresses := some [("1.1.1.1")], droplet_ids := none,
                 load_balancer_uids := none, kubernetes_ids := none,
                 tags := some [("bar")] } }

/-- Firewall holding cexRuleFix as its only inbound rule. -/
def cexFirewallFix : Firewall :=
  { id := "fw1", status := "succeeded", created_at := "", pending_changes := [],
    name := "Bar", droplet_ids := none, tags := none,
    inbound_rules := some [cexRuleFix], outbound_rules := none }

/-- Firewall lookup that always finds cexFirewallFix. -/
def cexGetFirewallFix : String → Except DoError (Option Firewall) :=
  fun _ => .ok (some cexFirewallFix)

/-- Response fixture echoing an IP different from every request below. -/
def wrongEchoRespFix : DomainRecordsModifyResp :=
  { domain_record := dnsRecordOf ("9.9.9.9") }

/-- Transport that always echoes 9.9.9.9 regardless of what was written. -/
def wrongEchoTransportFix : DnsHttpCall → Except DoError DomainRecordsModifyResp :=
  fun _ => .ok wrongEchoRespFix

theorem chainUrls_length {R : Type} {fetch : String → Except DoError R}
    {link_extractor : R → Links} {url : String} {ps : List R}
    (h : PageChain fetch link_extractor url ps) :
    (chainUrls link_extractor url ps).length = ps.length := by
  induction h with
  | last url r hf hn => simp [chainUrls, hn]
  | cons url r url2 rs hf hn hch ih => simp [chainUrls, hn, ih]

theorem get_all_objects_go_chain {R T : Type} {fetch : String → Except DoError R}
    (value_extractor : R → List T) {link_extractor : R → Links} {url : String}
    {ps : List R} (h : PageChain fetch link_extractor url ps) (objects : List T) :
    get_all_objects_go fetch value_extractor link_extractor ps.length url objects =
      some (chainUrls link_extractor url ps,
        .ok (objects ++ (ps.map value_extractor).flatten)) := by
  induction h generalizing objects with
  | last url r hf hn =>
    simp [get_all_objects_go, hf, hn, chainUrls]
  | cons url r url2 rs hf hn hch ih =>
    simp [get_all_objects_go, hf, hn, chainUrls, ih]

/-- C3: over an N-page collection reached by following next links until
absent, get_all_objects issues exactly N page requests (the trace is
precisely the N page URLs in order), returns the concatenation of every
page's items in page order without stopping early or erroring; with a single
empty page and no next link this yields the empty list. -/
theorem C3_collect_all_pages {R T : Type} (fetch : String → Except DoError R)
    (value_extractor : R → List T) (link_extractor : R → Links)
    (startUrl : String) (ps : List R)
    (h : PageChain fetch link_extractor startUrl ps) :
    get_all_objects fetch value_extractor link_extractor ps.length startUrl =
      some (chainUrls link_extractor startUrl ps,
        .ok ((ps.map value_extractor).flatten)) ∧
    (chainUrls link_extractor startUrl ps).length = ps.length := by
  constructor
  · have h2 := get_all_objects_go_chain value_extractor h []
    simpa [get_all_objects] using h2
  · exact chainUrls_length h

/-- Witness for C3 on concrete servers: a two-page collection is collected in
two requests with items in page order, and an empty single-page collection
yields the empty list in one request, not an error. -/
theorem C3_collect_all_pages_witness :
    get_all_objects fetchPagesFix MockResp.items MockResp.links 2 ("p1") =
      some ([("p1"), ("p2")], .ok ([1, 2, 3])) ∧
    get_all_objects fetchEmptyFix MockResp.items MockResp.links 1 ("e1") =
      some ([("e1")], .ok ([] : List Nat)) := by
  constructor
  · have hch : PageChain fetchPagesFix MockResp.links ("p1") [page1Fix, page2Fix] := by
      refine PageChain.cons _ _ ("p2") _ rfl rfl ?_
      exact PageChain.last _ _ rfl rfl
    exact (C3_collect_all_pages fetchPagesFix MockResp.items MockResp.links ("p1")
      [page1Fix, page2Fix] hch).1
  · have hch : PageChain fetchEmptyFix MockResp.links ("e1") [emptyPageFix] :=
      PageChain.last _ _ rfl rfl
    exact (C3_collect_all_pages fetchEmptyFix MockResp.items MockResp.links ("e1")
      [emptyPageFix] hch).1

theorem get_object_by_name_none_chain {R T : Type} {fetch : String → Except DoError R}
    (value_extractor : R → List T) {link_extractor : R → Links}
    (name_checker : T → String → Bool) (name : String) {url : String} {ps : List R}
    (h : PageChain fetch link_extractor url ps)
    (hnone : ∀ r ∈ ps, (value_extractor r).find? (fun v => name_checker v name) = none) :
    get_object_by_name fetch value_extractor link_extractor name_checker name ps.length url =
      some (chainUrls link_extractor url ps, .ok none) := by
  induction h with
  | last url r hf hn =>
    simp [get_object_by_name, hf, hn, chainUrls, hnone r (by simp)]
  | cons url r url2 rs hf hn hch ih =>
    have h1 := hnone r (by simp)
    have ih2 := ih (fun p hp => hnone p (by simp [hp]))
    simp [get_object_by_name, hf, hn, chainUrls, h1, ih2]

theorem get_object_by_name_step {R T : Type} (fetch : String → Except DoError R)
    (value_extractor : R → List T) (link_extractor : R → Links)
    (name_checker : T → String → Bool) (name : String) (fuel : Nat)
    (url url2 : String) (r : R) (hf : fetch url = .ok r)
    (hfind : (value_extractor r).find? (fun v => name_checker v name) = none)
    (hn : nextUrl (link_extractor r) = some url2) :
    get_object_by_name fetch value_extractor link_extractor name_checker name
        (fuel + 1) url =
      (get_object_by_name fetch value_extractor link_extractor name_checker name
        fuel url2).map (fun p => (url :: p.1, p.2)) := by
  simp only [get_object_by_name, hf, hfind, hn]

theorem get_object_by_name_found_chain {R T : Type} {fetch : String → Except DoError R}
    (value_extractor : R → List T) {link_extractor : R → Links}
    (name_checker : T → String → Bool) (name : String) {url : String} {ps : List R}
    (h : PageChain fetch link_extractor url ps) :
    ∀ ps₁ p ps₂ v, ps = ps₁ ++ p :: ps₂ →
      (∀ r ∈ ps₁, (value_extractor r).find? (fun x => name_checker x name) = none) →
      (value_extractor p).find? (fun x => name_checker x name) = some v →
      get_object_by_name fetch value_extractor link_extractor name_checker name
          ps.length url =
        some (chainUrls link_extractor url (ps₁ ++ [p]), .ok (some v)) ∧
      (chainUrls link_extractor url (ps₁ ++ [p])).length = ps₁.length + 1 := by
  induction h with
  | last url r hf hn =>
    intro ps₁ p ps₂ v heq hpre hfind
    cases ps₁ with
    | nil =>
      simp only [List.nil_append] at heq
      cases heq
      constructor
      · simp [get_object_by_name, hf, hfind, chainUrls, hn]
      · simp [chainUrls, hn]
    | cons q qs =>
      exfalso
      have hl := congrArg List.length heq
      simp at hl
  | cons url r url2 rs hf hn hch ih =>
    intro ps₁ p ps₂ v heq hpre hfind
    cases ps₁ with
    | nil =>
      simp only [List.nil_append] at heq
      cases heq
      constructor
      · simp [get_object_by_name, hf, hfind, chainUrls, hn]
      · simp [chainUrls, hn]
    | cons q qs =>
      simp only [List.cons_append] at heq
      cases heq
      have h1 := hpre r (by simp)
      have ih2 := ih qs p ps₂ v rfl (fun x hx => hpre x (by simp [hx])) hfind
      constructor
      · have hstep := get_object_by_name_step fetch value_extractor link_extractor
          name_checker name ((qs ++ p :: ps₂).length) url url2 r hf h1 hn
        calc get_object_by_name fetch value_extractor link_extractor name_checker name
              ((r :: (qs ++ p :: ps₂)).length) url
            = (get_object_by_name fetch value_extractor link_extractor name_checker name
                ((qs ++ p :: ps₂).length) url2).map (fun p => (url :: p.1, p.2)) := by
              simpa using hstep
          _ = some (chainUrls link_extractor url ((r :: qs) ++ [p]), .ok (some v)) := by
              rw [ih2.1]
              simp [chainUrls, hn]
      · simp [chainUrls, hn, ih2.2]

/-- C2: over a paginated collection whose first matching item sits on page k
(k = ps₁.length + 1 after splitting the chain), get_object_by_name issues
exactly k page requests (the trace is the first k page URLs), returns that
page's first matching item, and never requests page k+1; if no item on any
page matches and the final page has no next link it returns Ok(None), not an
error. -/
theorem C2_find_stops_at_first_match {R T : Type} (fetch : String → Except DoError R)
    (value_extractor : R → List T) (link_extractor : R → Links)
    (name_checker : T → String → Bool) (name : String) (startUrl : String)
    (ps : List R) (h : PageChain fetch link_extractor startUrl ps) :
    (∀ ps₁ p ps₂ v, ps = ps₁ ++ p :: ps₂ →
      (∀ r ∈ ps₁, (value_extractor r).find? (fun x => name_checker x name) = none) →
      (value_extractor p).find? (fun x => name_checker x name) = some v →
      get_object_by_name fetch value_extractor link_extractor name_checker name
          ps.length startUrl =
        some (chainUrls link_extractor startUrl (ps₁ ++ [p]), .ok (some v)) ∧
      (chainUrls link_extractor startUrl (ps₁ ++ [p])).length = ps₁.length + 1) ∧
    ((∀ r ∈ ps, (value_extractor r).find? (fun x => name_checker x name) = none) →
      get_object_by_name fetch value_extractor link_extractor name_checker name
          ps.length startUrl =
        some (chainUrls link_extractor startUrl ps, .ok none)) := by
  constructor
  · exact get_object_by_name_found_chain value_extractor name_checker name h
  · exact get_object_by_name_none_chain value_extractor name_checker name h

/-- Witness for C2 on the concrete two-page server: searching for item 3
(which sits on page 2) takes exactly the two page requests and returns it;
searching for the absent item 7 traverses both pages and returns Ok(None). -/
theorem C2_find_stops_at_first_match_witness :
    get_object_by_name fetchPagesFix MockResp.items MockResp.links
        (fun v n => Nat.repr v == n) ("3") 2 ("p1") =
      some ([("p1"), ("p2")], .ok (some 3)) ∧
    get_object_by_name fetchPagesFix MockResp.items MockResp.links
        (fun v n => Nat.repr v == n) ("7") 2 ("p1") =
      some ([("p1"), ("p2")], .ok none) := by
  have hch : PageChain fetchPagesFix MockResp.links ("p1") [page1Fix, page2Fix] := by
    refine PageChain.cons _ _ ("p2") _ rfl rfl ?_
    exact PageChain.last _ _ rfl rfl
  constructor
  · exact ((C2_find_stops_at_first_match fetchPagesFix MockResp.items MockResp.links
      (fun v n => Nat.repr v == n) ("3") ("p1") [page1Fix, page2Fix] hch).1
      [page1Fix] page2Fix [] 3 rfl (by decide) (by decide)).1
  · exact (C2_find_stops_at_first_match fetchPagesFix MockResp.items MockResp.links
      (fun v n => Nat.repr v == n) ("7") ("p1") [page1Fix, page2Fix] hch).2
      (by decide)

/-- C1: update_firewall always issues delete_firewall_rule with exactly the
old rule wrapped alone in its direction's slot (the other slot absent)
strictly before add_firewall_rule with the new rule under the same slot
discipline, then re-fetches the firewall by name. If delete fails, add is
never attempted; if add fails after delete succeeded, the error propagates
with no further call (in particular no compensating re-add of the old rule);
on success the trace is exactly delete, add, get_firewall in that order. -/
theorem C1_update_firewall_delete_before_add {σ : Type}
    (fw_client : DigitalOceanFirewallClient σ) (firewall : Firewall)
    (irepl : Option (FirewallInboundRule × FirewallInboundRule))
    (orepl : Option (FirewallOutboundRule × FirewallOutboundRule))
    (dry_run : Bool) (s : σ) :
    (∀ e s1, fw_client.delete_firewall_rule firewall.id (irepl.map (fun p => [p.1]))
        (orepl.map (fun p => [p.1])) dry_run s = (.error e, s1) →
      update_firewall fw_client firewall irepl orepl dry_run s =
        (.error (.failure (.Client e)), s1,
          [.deleteRule firewall.id (irepl.map (fun p => [p.1]))
            (orepl.map (fun p => [p.1])) dry_run])) ∧
    (∀ s1 e s2, fw_client.delete_firewall_rule firewall.id (irepl.map (fun p => [p.1]))
        (orepl.map (fun p => [p.1])) dry_run s = (.ok (), s1) →
      fw_client.add_firewall_rule firewall.id (irepl.map (fun p => [p.2]))
        (orepl.map (fun p => [p.2])) dry_run s1 = (.error e, s2) →
      update_firewall fw_client firewall irepl orepl dry_run s =
        (.error (.failure (.Client e)), s2,
          [.deleteRule firewall.id (irepl.map (fun p => [p.1]))
            (orepl.map (fun p => [p.1])) dry_run,
           .addRule firewall.id (irepl.map (fun p => [p.2]))
            (orepl.map (fun p => [p.2])) dry_run])) ∧
    (∀ s1 s2 f, fw_client.delete_firewall_rule firewall.id (irepl.map (fun p => [p.1]))
        (orepl.map (fun p => [p.1])) dry_run s = (.ok (), s1) →
      fw_client.add_firewall_rule firewall.id (irepl.map (fun p => [p.2]))
        (orepl.map (fun p => [p.2])) dry_run s1 = (.ok (), s2) →
      fw_client.get_firewall firewall.name s2 = .ok (some f) →
      update_firewall fw_client firewall irepl orepl dry_run s =
        (.ok f, s2,
          [.deleteRule firewall.id (irepl.map (fun p => [p.1]))
            (orepl.map (fun p => [p.1])) dry_run,
           .addRule firewall.id (irepl.map (fun p => [p.2]))
            (orepl.map (fun p => [p.2])) dry_run,
           .getFirewall firewall.name])) := by
  refine ⟨?_, ?_, ?_⟩
  · intro e s1 hdel
    simp [update_firewall, hdel]
  · intro s1 e s2 hdel hadd
    simp [update_firewall, hdel, hadd]
  · intro s1 s2 f hdel hadd hget
    simp [update_firewall, hdel, hadd, hget]

/-- Witness for C1: on the all-success backend an inbound update issues
exactly delete (old rule alone in the inbound slot, outbound slot absent),
then add (new rule, same slot), then the re-fetch by name; on the backend
whose add fails after a successful delete, the CreateFirewallRule error
propagates and the trace stops at the add — no compensating call. -/
theorem C1_update_firewall_delete_before_add_witness :
    update_firewall fwClientOkFix fwFix (some (fwRuleFix, fwNewRuleFix)) none false () =
      (.ok fwFix, (),
        [.deleteRule ("foo") (some [fwRuleFix]) none false,
         .addRule ("foo") (some [fwNewRuleFix]) none false,
         .getFirewall ("Foo")]) ∧
    update_firewall fwClientAddFailsFix fwFix (some (fwRuleFix, fwNewRuleFix)) none false () =
      (.error (.failure (.Client (.CreateFirewallRule ("test")))), (),
        [.deleteRule ("foo") (some [fwRuleFix]) none false,
         .addRule ("foo") (some [fwNewRuleFix]) none false]) := by
  constructor
  · exact (C1_update_firewall_delete_before_add fwClientOkFix fwFix
      (some (fwRuleFix, fwNewRuleFix)) none false ()).2.2 () () fwFix rfl rfl rfl
  · exact (C1_update_firewall_delete_before_add fwClientAddFailsFix fwFix
      (some (fwRuleFix, fwNewRuleFix)) none false ()).2.1 ()
      (.CreateFirewallRule ("test")) () rfl rfl

/-- C8: run_dns fails with DomainNotFound before any mutation when the domain
is absent; with the domain present it is an upsert: no matching record means
exactly one create_record call (whose outcome is returned), and an existing
record whose IP differs from the desired one means exactly one update_record
call (whose outcome is returned). -/
theorem C8_run_dns_upsert {σ : Type} (client : DigitalOceanDnsClient σ)
    (domain record_name rtype : String) (ip : IpAddr) (ttl : Nat)
    (dry_run : Bool) (s : σ) :
    (client.get_domain domain s = .ok none →
      run_dns client domain record_name rtype ip ttl dry_run s =
        (.error .DomainNotFound, s, [.getDomain domain])) ∧
    (∀ d r s1, client.get_domain domain s = .ok (some d) →
      client.get_record domain record_name rtype s = .ok none →
      client.create_record domain record_name rtype ip ttl dry_run s = (.ok r, s1) →
      run_dns client domain record_name rtype ip ttl dry_run s =
        (.ok r, s1, [.getDomain domain, .getRecord domain record_name rtype,
          .createRecord domain record_name rtype ip ttl dry_run])) ∧
    (∀ d e s1, client.get_domain domain s = .ok (some d) →
      client.get_record domain record_name rtype s = .ok none →
      client.create_record domain record_name rtype ip ttl dry_run s = (.error e, s1) →
      run_dns client domain record_name rtype ip ttl dry_run s =
        (.error (.Client e), s1, [.getDomain domain, .getRecord domain record_name rtype,
          .createRecord domain record_name rtype ip ttl dry_run])) ∧
    (∀ d rec record_ip r s1, client.get_domain domain s = .ok (some d) →
      client.get_record domain record_name rtype s = .ok (some rec) →
      parseIp rec.data = some record_ip → record_ip ≠ ip →
      client.update_record domain rec ip ttl dry_run s = (.ok r, s1) →
      run_dns client domain record_name rtype ip ttl dry_run s =
        (.ok r, s1, [.getDomain domain, .getRecord domain record_name rtype,
          .updateRecord domain rec ip ttl dry_run])) ∧
    (∀ d rec record_ip e s1, client.get_domain domain s = .ok (some d) →
      client.get_record domain record_name rtype s = .ok (some rec) →
      parseIp rec.data = some record_ip → record_ip ≠ ip →
      client.update_record domain rec ip ttl dry_run s = (.error e, s1) →
      run_dns client domain record_name rtype ip ttl dry_run s =
        (.error (.Client e), s1, [.getDomain domain, .getRecord domain record_name rtype,
          .updateRecord domain rec ip ttl dry_run])) := by
  refine ⟨?_, ?_, ?_, ?_, ?_⟩
  · intro hgd
    simp [run_dns, hgd]
  · intro d r s1 hgd hgr hcr
    simp [run_dns, hgd, hgr, hcr]
  · intro d e s1 hgd hgr hcr
    simp [run_dns, hgd, hgr, hcr]
  · intro d rec record_ip r s1 hgd hgr hip hne hup
    simp [run_dns, hgd, hgr, hip, hne, hup]
  · intro d rec record_ip e s1 hgd hgr hip hne hup
    simp [run_dns, hgd, hgr, hip, hne, hup]

/-- Witness for C8 on the concrete single-record backend: an absent domain
fails with DomainNotFound; an absent record yields exactly one create whose
result carries the requested IP; a record holding 4.4.4.4 with desired IP
8.8.8.8 yields exactly one update. -/
theorem C8_run_dns_upsert_witness :
    run_dns dnsNoDomainFix ("example.com") ("www") ("A") ⟨8, 8, 8, 8⟩ 60 false none =
      (.error .DomainNotFound, none, [.getDomain ("example.com")]) ∧
    run_dns dnsBackendFix ("example.com") ("www") ("A") ⟨8, 8, 8, 8⟩ 60 false none =
      (.ok (dnsRecordOf ("8.8.8.8")), some ("8.8.8.8"),
        [.getDomain ("example.com"), .getRecord ("example.com") ("www") ("A"),
         .createRecord ("example.com") ("www") ("A") ⟨8, 8, 8, 8⟩ 60 false]) ∧
    run_dns dnsBackendFix ("example.com") ("www") ("A") ⟨8, 8, 8, 8⟩ 60 false
        (some ("4.4.4.4")) =
      (.ok (dnsRecordOf ("8.8.8.8")), some ("8.8.8.8"),
        [.getDomain ("example.com"), .getRecord ("example.com") ("www") ("A"),
         .updateRecord ("example.com") (dnsRecordOf ("4.4.4.4")) ⟨8, 8, 8, 8⟩ 60 false]) := by
  refine ⟨?_, ?_, ?_⟩
  · exact (C8_run_dns_upsert dnsNoDomainFix ("example.com") ("www") ("A")
      ⟨8, 8, 8, 8⟩ 60 false none).1 rfl
  · exact (C8_run_dns_upsert dnsBackendFix ("example.com") ("www") ("A")
      ⟨8, 8, 8, 8⟩ 60 false none).2.1 dnsDomainFix (dnsRecordOf ("8.8.8.8"))
      (some ("8.8.8.8")) rfl rfl rfl
  · exact (C8_run_dns_upsert dnsBackendFix ("example.com") ("www") ("A")
      ⟨8, 8, 8, 8⟩ 60 false (some ("4.4.4.4"))).2.2.2.1 dnsDomainFix
      (dnsRecordOf ("4.4.4.4")) ⟨4, 4, 4, 4⟩ (dnsRecordOf ("8.8.8.8"))
      (some ("8.8.8.8")) rfl rfl (by decide) (by decide) rfl

theorem run_dns_countP_le_one {σ : Type} (client : DigitalOceanDnsClient σ)
    (domain record_name rtype : String) (ip : IpAddr) (ttl : Nat)
    (dry_run : Bool) (s : σ) :
    ((run_dns client domain record_name rtype ip ttl dry_run s).2.2).countP
      isMutatingDnsCall ≤ 1 := by
  simp only [run_dns]
  repeat' split
  all_goals simp [List.countP_cons, List.countP_nil, isMutatingDnsCall]

/-- C7: when the located record's data parses to the desired IP, run_dns
returns that record unchanged, leaves the backend state untouched and issues
no mutating call; every run makes at most one mutating call; and a second run
from the state the first run produced (whose reads now observe the desired
IP) is a pure no-op, so two runs with the same desired IP make at most one
mutating call in total, all of it on the first run. -/
theorem C7_run_dns_idempotent {σ : Type} (client : DigitalOceanDnsClient σ)
    (domain record_name rtype : String) (ip : IpAddr) (ttl : Nat)
    (dry_run : Bool) (s : σ) :
    (∀ d r, client.get_domain domain s = .ok (some d) →
      client.get_record domain record_name rtype s = .ok (some r) →
      parseIp r.data = some ip →
      run_dns client domain record_name rtype ip ttl dry_run s =
        (.ok r, s, [.getDomain domain, .getRecord domain record_name rtype])) ∧
    ((run_dns client domain record_name rtype ip ttl dry_run s).2.2).countP
      isMutatingDnsCall ≤ 1 ∧
    (∀ d1 r1, client.get_domain domain
        ((run_dns client domain record_name rtype ip ttl dry_run s).2.1) = .ok (some d1) →
      client.get_record domain record_name rtype
        ((run_dns client domain record_name rtype ip ttl dry_run s).2.1) = .ok (some r1) →
      parseIp r1.data = some ip →
      run_dns client domain record_name rtype ip ttl dry_run
          ((run_dns client domain record_name rtype ip ttl dry_run s).2.1) =
        (.ok r1, (run_dns client domain record_name rtype ip ttl dry_run s).2.1,
          [.getDomain domain, .getRecord domain record_name rtype]) ∧
      ((run_dns client domain record_name rtype ip ttl dry_run s).2.2).countP
          isMutatingDnsCall +
        ((run_dns client domain record_name rtype ip ttl dry_run
            ((run_dns client domain record_name rtype ip ttl dry_run s).2.1)).2.2).countP
          isMutatingDnsCall ≤ 1) := by
  refine ⟨?_, run_dns_countP_le_one client domain record_name rtype ip ttl dry_run s, ?_⟩
  · intro d r hgd hgr hip
    simp [run_dns, hgd, hgr, hip]
  · intro d1 r1 hgd hgr hip
    have hrun2 : run_dns client domain record_name rtype ip ttl dry_run
        ((run_dns client domain record_name rtype ip ttl dry_run s).2.1) =
        (.ok r1, (run_dns client domain record_name rtype ip ttl dry_run s).2.1,
          [.getDomain domain, .getRecord domain record_name rtype]) := by
      generalize hS : (run_dns client domain record_name rtype ip ttl dry_run s).2.1 = s1 at hgd hgr ⊢
      simp [run_dns, hgd, hgr, hip]
    refine ⟨hrun2, ?_⟩
    have h2 : ((run_dns client domain record_name rtype ip ttl dry_run
        ((run_dns client domain record_name rtype ip ttl dry_run s).2.1)).2.2).countP
        isMutatingDnsCall = 0 := by
      rw [hrun2]
      simp [List.countP_cons, List.countP_nil, isMutatingDnsCall]
    rw [h2]
    simpa using run_dns_countP_le_one client domain record_name rtype ip ttl dry_run s

/-- Witness for C7 on the concrete backend: with the record already holding
8.8.8.8 the run is a read-only no-op, and starting from 4.4.4.4 the second
run (from the first run's final state) is a pure no-op with at most one
mutating call across both runs. -/
theorem C7_run_dns_idempotent_witness :
    run_dns dnsBackendFix ("example.com") ("www") ("A") ⟨8, 8, 8, 8⟩ 60 false
        (some ("8.8.8.8")) =
      (.ok (dnsRecordOf ("8.8.8.8")), some ("8.8.8.8"),
        [.getDomain ("example.com"), .getRecord ("example.com") ("www") ("A")]) ∧
    (run_dns dnsBackendFix ("example.com") ("www") ("A") ⟨8, 8, 8, 8⟩ 60 false
        ((run_dns dnsBackendFix ("example.com") ("www") ("A") ⟨8, 8, 8, 8⟩ 60 false
          (some ("4.4.4.4"))).2.1) =
      (.ok (dnsRecordOf ("8.8.8.8")),
        (run_dns dnsBackendFix ("example.com") ("www") ("A") ⟨8, 8, 8, 8⟩ 60 false
          (some ("4.4.4.4"))).2.1,
        [.getDomain ("example.com"), .getRecord ("example.com") ("www") ("A")]) ∧
      ((run_dns dnsBackendFix ("example.com") ("www") ("A") ⟨8, 8, 8, 8⟩ 60 false
          (some ("4.4.4.4"))).2.2).countP isMutatingDnsCall +
        ((run_dns dnsBackendFix ("example.com") ("www") ("A") ⟨8, 8, 8, 8⟩ 60 false
          ((run_dns dnsBackendFix ("example.com") ("www") ("A") ⟨8, 8, 8, 8⟩ 60 false
            (some ("4.4.4.4"))).2.1)).2.2).countP isMutatingDnsCall ≤ 1) := by
  constructor
  · exact (C7_run_dns_idempotent dnsBackendFix ("example.com") ("www") ("A")
      ⟨8, 8, 8, 8⟩ 60 false (some ("8.8.8.8"))).1 dnsDomainFix
      (dnsRecordOf ("8.8.8.8")) rfl rfl (by decide)
  · exact (C7_run_dns_idempotent dnsBackendFix ("example.com") ("www") ("A")
      ⟨8, 8, 8, 8⟩ 60 false (some ("4.4.4.4"))).2.2 dnsDomainFix
      (dnsRecordOf ("8.8.8.8")) rfl rfl (by decide)

theorem resolveNames_first_missing {K N T : Type} [ToString N] (by_name : N → Option T)
    (extract_key : T → K) (ns : List N) (n₀ : N)
    (h : ns.find? (fun n => (by_name n).isNone) = some n₀) :
    resolveNames by_name extract_key ns =
      .error (.panicked ("Unable to find object with name " ++ toString n₀)) := by
  induction ns with
  | nil => simp at h
  | cons n ns ih =>
    cases hb : by_name n with
    | none =>
      have hn : n = n₀ := by
        simp [List.find?_cons, hb] at h
        exact h
      subst hn
      simp [resolveNames, hb]
    | some d =>
      have h2 : ns.find? (fun n => (by_name n).isNone) = some n₀ := by
        simpa [List.find?_cons, hb] using h
      simp [resolveNames, hb, ih h2, Except.map]

/-- C5: if names is absent, names_to_ids is Ok(None) whatever the fetch-all
operation does (even an always-failing one), so fetch-all is observably never
invoked; if any requested name is missing from the fetched collection's name
map, the resolver aborts the run (a panic naming the missing name — the
failure the spec's taxonomy labels NameNotFound) and no partial id list is
produced; a failed build_firewall_args makes main's firewall path stop with
an empty mutation trace, so the abort happens before any mutating call, and
a missing droplet name makes build_firewall_args abort exactly that way. -/
theorem C5_names_to_ids_abort {K N T σ : Type} [DecidableEq N] [ToString N] :
    (∀ (get_objects : Unit → Except DoError (List T)) (en : T → N) (ek : T → K),
      names_to_ids get_objects none en ek = .ok none) ∧
    (∀ (get_objects : Unit → Except DoError (List T)) (ns : List N) (objs : List T)
        (en : T → N) (ek : T → K) (n₀ : N), get_objects () = .ok objs →
      ns.find? (fun n => (byNameLookup en objs n).isNone) = some n₀ →
      names_to_ids get_objects (some ns) en ek =
        .error (.panicked ("Unable to find object with name " ++ toString n₀))) ∧
    (∀ (fw_client : DigitalOceanFirewallClient σ)
        (gd : Unit → Except DoError (List Droplet))
        (gk : Unit → Except DoError (List KubernetesCluster))
        (gl : Unit → Except DoError (List Loadbalancer))
        (name : String) (direction : Direction) (port protocol : String)
        (addresses dn kn ln : Option (List String)) (ip : IpAddr)
        (dry_run : Bool) (s : σ) (a : Abort MainError),
      build_firewall_args (fun n => fw_client.get_firewall n s) gd gk gl name direction
        port protocol addresses dn kn ln ip = .error a →
      main_firewall fw_client gd gk gl name direction port protocol addresses dn kn ln
        ip dry_run s = (.error a, s, [])) ∧
    (∀ (get_firewall : String → Except DoError (Option Firewall))
        (gd : Unit → Except DoError (List Droplet))
        (gk : Unit → Except DoError (List KubernetesCluster))
        (gl : Unit → Except DoError (List Loadbalancer))
        (name : String) (direction : Direction) (port protocol : String)
        (addresses : Option (List String)) (ns : List String)
        (kn ln : Option (List String)) (ip : IpAddr) (fw : Firewall)
        (objs : List Droplet) (n₀ : String),
      get_firewall name = .ok (some fw) → gd () = .ok objs →
      ns.find? (fun n => (byNameLookup Droplet.name objs n).isNone) = some n₀ →
      build_firewall_args get_firewall gd gk gl name direction port protocol addresses
        (some ns) kn ln ip =
        .error (.panicked ("Unable to find object with name " ++ toString n₀))) := by
  refine ⟨?_, ?_, ?_, ?_⟩
  · intro get_objects en ek
    simp [names_to_ids]
  · intro get_objects ns objs en ek n₀ hobj hmiss
    simp [names_to_ids, hobj, Except.map,
      resolveNames_first_missing (byNameLookup en objs) ek ns n₀ hmiss]
  · intro fw_client gd gk gl name direction port protocol addresses dn kn ln ip
      dry_run s a hbuild
    simp [main_firewall, hbuild]
  · intro get_firewall gd gk gl name direction port protocol addresses ns kn ln ip
      fw objs n₀ hfw hobj hmiss
    have h1 : names_to_ids gd (some ns) Droplet.name Droplet.id =
        .error (.panicked ("Unable to find object with name " ++ toString n₀)) := by
      simp [names_to_ids, hobj, Except.map,
        resolveNames_first_missing (byNameLookup Droplet.name objs) Droplet.id ns n₀ hmiss]
    simp [build_firewall_args, hfw, h1, liftAbort]

/-- Witness for C5: with names absent the resolver returns Ok(None) even over
the failing fetch; the name list with the unresolvable name aborts with the
panic naming it; and the firewall path with that droplet name stops with an
empty mutation trace. -/
theorem C5_names_to_ids_abort_witness :
    names_to_ids failDropletsFix none Droplet.name Droplet.id = .ok none ∧
    names_to_ids dropletsFix (some [("a"), ("missing")]) Droplet.name Droplet.id =
      .error (.panicked ("Unable to find object with name missing")) ∧
    main_firewall fwClientOkFix dropletsFix noKubeFix noLbFix ("Foo") .Inbound ("80")
        ("http") none (some [("a"), ("missing")]) none none ⟨8, 8, 8, 8⟩ false () =
      (.error (.panicked ("Unable to find object with name missing")), (), []) := by
  refine ⟨?_, ?_, ?_⟩
  · exact (@C5_names_to_ids_abort Nat String Droplet Unit _ _).1 failDropletsFix
      Droplet.name Droplet.id
  · exact (@C5_names_to_ids_abort Nat String Droplet Unit _ _).2.1 dropletsFix
      [("a"), ("missing")] [⟨1, "a"⟩, ⟨2, "b"⟩] Droplet.name Droplet.id ("missing")
      rfl (by decide)
  · exact (@C5_names_to_ids_abort Nat String Droplet Unit _ _).2.2.1 fwClientOkFix
      dropletsFix noKubeFix noLbFix ("Foo") .Inbound ("80") ("http") none
      (some [("a"), ("missing")]) none none ⟨8, 8, 8, 8⟩ false ()
      (.panicked ("Unable to find object with name missing")) rfl

theorem newAddresses_eq (addresses : Option (List String)) (ip : IpAddr) :
    newAddresses addresses ip =
      if (addresses.getD []).contains (ipToString ip) then addresses.getD []
      else addresses.getD [] ++ [ipToString ip] := by
  cases addresses <;> rfl

theorem newAddresses_mem (addresses : Option (List String)) (ip : IpAddr) :
    ipToString ip ∈ newAddresses addresses ip := by
  rw [newAddresses_eq]
  cases hc : (addresses.getD []).contains (ipToString ip) with
  | true =>
    simp only [if_true]
    simpa using hc
  | false => simp

theorem newAddresses_count (addresses : Option (List String)) (ip : IpAddr)
    (h : (addresses.getD []).Nodup) :
    (newAddresses addresses ip).count (ipToString ip) = 1 := by
  rw [newAddresses_eq]
  cases hc : (addresses.getD []).contains (ipToString ip) with
  | true =>
    simp only [if_true]
    exact List.count_eq_one_of_mem h (by simpa using hc)
  | false =>
    have hn : ipToString ip ∉ addresses.getD [] := by simpa using hc
    simp [List.count_append, List.count_eq_zero_of_not_mem hn]

theorem newAddresses_nodup (addresses : Option (List String)) (ip : IpAddr)
    (h : (addresses.getD []).Nodup) :
    (newAddresses addresses ip).Nodup := by
  rw [newAddresses_eq]
  cases hc : (addresses.getD []).contains (ipToString ip) with
  | true => simpa using h
  | false =>
    have hn : ipToString ip ∉ addresses.getD [] := by simpa using hc
    simp [List.nodup_append]
    exact ⟨h, hn⟩

theorem resolveNames_ok {K N T : Type} [ToString N] (by_name : N → Option T)
    (extract_key : T → K) (ns : List N) (ds : List T)
    (h : List.Forall₂ (fun n d => by_name n = some d) ns ds) :
    resolveNames by_name extract_key ns = .ok (ds.map extract_key) := by
  induction h with
  | nil => simp [resolveNames]
  | cons h1 h2 ih => simp [resolveNames, h1, ih, Except.map]

/-- C4 (amended): when the requested direction holds a rule matching
(ports, protocol), the computed replacement rule copies the old rule's
protocol and ports and carries its tags unchanged; its addresses are the
caller-supplied list with the current IP appended exactly when not already
present — so the current IP is always a member, no new duplicate is ever
introduced, and for a duplicate-free caller list the result is duplicate-free
with the current IP exactly once, but duplicates already present in the
caller-supplied list are preserved (the original claim's set/no-duplicate
reading fails there, see the counterexample); each id selector equals the
resolved ids of the requested names in request order, and is omitted entirely
when that name list was not supplied. -/
theorem C4_build_firewall_args_new_rule
    (get_firewall : String → Except DoError (Option Firewall))
    (gd : Unit → Except DoError (List Droplet))
    (gk : Unit → Except DoError (List KubernetesCluster))
    (gl : Unit → Except DoError (List Loadbalancer))
    (name port protocol : String) (addresses : Option (List String))
    (dn kn ln : Option (List String)) (ip : IpAddr) (fw : Firewall)
    (dids : Option (List Nat)) (kids lids : Option (List String))
    (hfw : get_firewall name = .ok (some fw))
    (hd : liftAbort (names_to_ids gd dn Droplet.name Droplet.id) = .ok dids)
    (hk : liftAbort (names_to_ids gk kn KubernetesCluster.name KubernetesCluster.id) =
      .ok kids)
    (hl : liftAbort (names_to_ids gl ln Loadbalancer.name Loadbalancer.id) = .ok lids) :
    (∀ rules old, fw.inbound_rules = some rules →
      rules.find? (fun x => x.ports == port && x.protocol == protocol) = some old →
      build_firewall_args get_firewall gd gk gl name .Inbound port protocol addresses
          dn kn ln ip =
        .ok (fw, some (old,
          { protocol := old.protocol, ports := old.ports,
            sources := { addresses := some (newAddresses addresses ip),
                         droplet_ids := dids, load_balancer_uids := lids,
                         kubernetes_ids := kids, tags := old.sources.tags } }), none)) ∧
    (∀ rules old, fw.outbound_rules = some rules →
      rules.find? (fun x => x.ports == port && x.protocol == protocol) = some old →
      build_firewall_args get_firewall gd gk gl name .Outbound port protocol addresses
          dn kn ln ip =
        .ok (fw, none, some (old,
          { protocol := old.protocol, ports := old.ports,
            destinations := { addresses := some (newAddresses addresses ip),
                              droplet_ids := dids, load_balancer_uids := lids,
                              kubernetes_ids := kids, tags := old.destinations.tags } }))) ∧
    ipToString ip ∈ newAddresses addresses ip ∧
    ((addresses.getD []).Nodup → (newAddresses addresses ip).Nodup) ∧
    ((addresses.getD []).Nodup →
      (newAddresses addresses ip).count (ipToString ip) = 1) ∧
    (dn = none → dids = none) ∧
    (kn = none → kids = none) ∧
    (ln = none → lids = none) ∧
    (∀ ns ds objs, dn = some ns → gd () = .ok objs →
      List.Forall₂ (fun n d => byNameLookup Droplet.name objs n = some d) ns ds →
      dids = some (ds.map Droplet.id)) ∧
    (∀ ns ds objs, kn = some ns → gk () = .ok objs →
      List.Forall₂ (fun n d => byNameLookup KubernetesCluster.name objs n = some d) ns ds →
      kids = some (ds.map KubernetesCluster.id)) ∧
    (∀ ns ds objs, ln = some ns → gl () = .ok objs →
      List.Forall₂ (fun n d => byNameLookup Loadbalancer.name objs n = some d) ns ds →
      lids = some (ds.map Loadbalancer.id)) := by
  refine ⟨?_, ?_, newAddresses_mem addresses ip, newAddresses_nodup addresses ip,
    newAddresses_count addresses ip, ?_, ?_, ?_, ?_, ?_, ?_⟩
  · intro rules old hrules hfind
    simp [build_firewall_args, hfw, hd, hk, hl, hrules, hfind]
  · intro rules old hrules hfind
    simp [build_firewall_args, hfw, hd, hk, hl, hrules, hfind]
  · intro h
    subst h
    simpa [names_to_ids, liftAbort] using hd.symm
  · intro h
    subst h
    simpa [names_to_ids, liftAbort] using hk.symm
  · intro h
    subst h
    simpa [names_to_ids, liftAbort] using hl.symm
  · intro ns ds objs hdn hobj hfa
    subst hdn
    have h2 := hd
    simp only [names_to_ids, hobj,
      resolveNames_ok (byNameLookup Droplet.name objs) Droplet.id ns ds hfa,
      Except.map, liftAbort] at h2
    exact (Except.ok.inj h2).symm
  · intro ns ds objs hkn hobj hfa
    subst hkn
    have h2 := hk
    simp only [names_to_ids, hobj,
      resolveNames_ok (byNameLookup KubernetesCluster.name objs) KubernetesCluster.id
        ns ds hfa,
      Except.map, liftAbort] at h2
    exact (Except.ok.inj h2).symm
  · intro ns ds objs hln hobj hfa
    subst hln
    have h2 := hl
    simp only [names_to_ids, hobj,
      resolveNames_ok (byNameLookup Loadbalancer.name objs) Loadbalancer.id ns ds hfa,
      Except.map, liftAbort] at h2
    exact (Except.ok.inj h2).symm

/-- Counterexample to C4 as stated: with caller addresses ["8.8.8.8",
"8.8.8.8"] and current IP 8.8.8.8, build_firewall_args keeps the duplicate:
the computed rule's address list contains the current IP twice, so it is not
a duplicate-free set and the already-present current IP does not appear
exactly once. -/
theorem C4_build_firewall_args_new_rule_counterexample :
    build_firewall_args cexGetFirewallFix noDropletsFix noKubeFix noLbFix ("Bar")
        .Inbound ("443") ("tcp") (some [("8.8.8.8"), ("8.8.8.8")]) none none none
        ⟨8, 8, 8, 8⟩ =
      .ok (cexFirewallFix, some (cexRuleFix,
        { protocol := "tcp", ports := "443",
          sources := { addresses := some [("8.8.8.8"), ("8.8.8.8")],
                       droplet_ids := none, load_balancer_uids := none,
                       kubernetes_ids := none, tags := some [("bar")] } }), none) ∧
    ¬ List.Nodup [("8.8.8.8"), ("8.8.8.8")] ∧
    List.count ("8.8.8.8") [("8.8.8.8"), ("8.8.8.8")] = 2 := by
  refine ⟨rfl, by decide, by decide⟩

/-- Witness for the amended C4: with caller address 1.2.3.4, droplet names
["b", "a"] resolving to ids [2, 1] (request order preserved), and current IP
8.8.8.8 absent from the caller list, the computed rule copies protocol,
ports and tags, appends the current IP once, and omits the selectors whose
name lists were not supplied. -/
theorem C4_build_firewall_args_new_rule_witness :
    build_firewall_args cexGetFirewallFix dropletsFix noKubeFix noLbFix ("Bar")
        .Inbound ("443") ("tcp") (some [("1.2.3.4")]) (some [("b"), ("a")]) none none
        ⟨8, 8, 8, 8⟩ =
      .ok (cexFirewallFix, some (cexRuleFix,
        { protocol := "tcp", ports := "443",
          sources := { addresses := some [("1.2.3.4"), ("8.8.8.8")],
                       droplet_ids := some [2, 1], load_balancer_uids := none,
                       kubernetes_ids := none, tags := some [("bar")] } }), none) ∧
    List.count ("8.8.8.8") [("1.2.3.4"), ("8.8.8.8")] = 1 := by
  constructor
  · exact (C4_build_firewall_args_new_rule cexGetFirewallFix dropletsFix noKubeFix
      noLbFix ("Bar") ("443") ("tcp") (some [("1.2.3.4")]) (some [("b"), ("a")])
      none none ⟨8, 8, 8, 8⟩ cexFirewallFix (some [2, 1]) none none rfl rfl rfl
      rfl).1 [cexRuleFix] cexRuleFix rfl (by decide)
  · exact (C4_build_firewall_args_new_rule cexGetFirewallFix dropletsFix noKubeFix
      noLbFix ("Bar") ("443") ("tcp") (some [("1.2.3.4")]) (some [("b"), ("a")])
      none none ⟨8, 8, 8, 8⟩ cexFirewallFix (some [2, 1]) none none rfl rfl rfl
      rfl).2.2.2.2.1 (by decide)

/-- C6: for a non-dry-run update_record or create_record, the data echoed in
the server's response is parsed back as an IP and compared to the requested
IP: a parsed echo differing from the request fails with UpdateDns (update)
respectively CreateDns (create) and returns no record; conversely any Ok
result's data parses back exactly to the requested IP, so a non-reflecting
write is never accepted. -/
theorem C6_write_verification
    (transport : DnsHttpCall → Except DoError DomainRecordsModifyResp)
    (domain record_name rtype : String) (record : DomainRecord)
    (value : IpAddr) (ttl : Nat) :
    (∀ resp echoed,
      transport (DnsHttpCall.put
        (get_url ("/v2/domains/" ++ domain ++ "/records/" ++ Nat.repr record.id))
        { data := ipToString value }) = .ok resp →
      parseIp resp.domain_record.data = some echoed → echoed ≠ value →
      DigitalOceanDnsClientImpl.update_record transport domain record value ttl false =
        (.error (.UpdateDns ("New IP address not reflected in updated DNS record")),
          [DnsHttpCall.put
            (get_url ("/v2/domains/" ++ domain ++ "/records/" ++ Nat.repr record.id))
            { data := ipToString value }])) ∧
    (∀ r tr,
      DigitalOceanDnsClientImpl.update_record transport domain record value ttl false =
        (.ok r, tr) → parseIp r.data = some value) ∧
    (∀ resp echoed,
      transport (DnsHttpCall.post (get_url ("/v2/domains/" ++ domain ++ "/records"))
        { typ := rtype, name := record_name, data := ipToString value, priority := none,
          port := none, ttl := 60, weight := none, flags := none, tag := none }) =
        .ok resp →
      parseIp resp.domain_record.data = some echoed → echoed ≠ value →
      DigitalOceanDnsClientImpl.create_record transport domain record_name rtype value
          ttl false =
        (.error (.CreateDns ("New IP address not reflected in new DNS record")),
          [DnsHttpCall.post (get_url ("/v2/domains/" ++ domain ++ "/records"))
            { typ := rtype, name := record_name, data := ipToString value,
              priority := none, port := none, ttl := 60, weight := none, flags := none,
              tag := none }])) ∧
    (∀ r tr,
      DigitalOceanDnsClientImpl.create_record transport domain record_name rtype value
          ttl false = (.ok r, tr) → parseIp r.data = some value) := by
  refine ⟨?_, ?_, ?_, ?_⟩
  · intro resp echoed htr hip hne
    simp [DigitalOceanDnsClientImpl.update_record, htr, hip, hne]
  · intro r tr h
    simp only [DigitalOceanDnsClientImpl.update_record, Bool.false_eq_true,
      if_false] at h
    split at h
    · simp at h
    · split at h
      · simp at h
      · split at h
        · rename_i resp hresp echoed hecho heq
          simp only [Prod.mk.injEq, Except.ok.injEq] at h
          rw [← h.1]
          rw [hecho, heq]
        · simp at h
  · intro resp echoed htr hip hne
    simp [DigitalOceanDnsClientImpl.create_record, htr, hip, hne]
  · intro r tr h
    simp only [DigitalOceanDnsClientImpl.create_record, Bool.false_eq_true,
      if_false] at h
    split at h
    · simp at h
    · split at h
      · simp at h
      · split at h
        · rename_i resp hresp echoed hecho heq
          simp only [Prod.mk.injEq, Except.ok.injEq] at h
          rw [← h.1]
          rw [hecho, heq]
        · simp at h

/-- Witness for C6: against the backend echoing 9.9.9.9, writing 8.8.8.8
fails with UpdateDns on update and CreateDns on create, returning no record. -/
theorem C6_write_verification_witness :
    DigitalOceanDnsClientImpl.update_record wrongEchoTransportFix ("example.com")
        (dnsRecordOf ("4.4.4.4")) ⟨8, 8, 8, 8⟩ 60 false =
      (.error (.UpdateDns ("New IP address not reflected in updated DNS record")),
        [DnsHttpCall.put
          (get_url ("/v2/domains/example.com/records/" ++ Nat.repr 234))
          { data := ipToString ⟨8, 8, 8, 8⟩ }]) ∧
    DigitalOceanDnsClientImpl.create_record wrongEchoTransportFix ("example.com")
        ("www") ("A") ⟨8, 8, 8, 8⟩ 60 false =
      (.error (.CreateDns ("New IP address not reflected in new DNS record")),
        [DnsHttpCall.post (get_url ("/v2/domains/example.com/records"))
          { typ := "A", name := "www", data := ipToString ⟨8, 8, 8, 8⟩,
            priority := none, port := none, ttl := 60, weight := none, flags := none,
            tag := none }]) := by
  constructor
  · exact (C6_write_verification wrongEchoTransportFix ("example.com") ("www") ("A")
      (dnsRecordOf ("4.4.4.4")) ⟨8, 8, 8, 8⟩ 60).1 wrongEchoRespFix ⟨9, 9, 9, 9⟩
      rfl (by decide) (by decide)
  · exact (C6_write_verification wrongEchoTransportFix ("example.com") ("www") ("A")
      (dnsRecordOf ("4.4.4.4")) ⟨8, 8, 8, 8⟩ 60).2.2.1 wrongEchoRespFix ⟨9, 9, 9, 9⟩
      rfl (by decide) (by decide)

theorem run_dns_read_calls {σ : Type} (client : DigitalOceanDnsClient σ)
    (domain record_name rtype : String) (ip : IpAddr) (ttl : Nat)
    (dry_run : Bool) (s : σ) :
    ((run_dns client domain record_name rtype ip ttl dry_run s).2.2).filter
      (fun c => !(isMutatingDnsCall c)) =
    DnsCall.getDomain domain ::
      (match client.get_domain domain s with
       | .ok (some _) => [DnsCall.getRecord domain record_name rtype]
       | _ => []) := by
  simp only [run_dns]
  repeat' split
  all_goals simp_all [isMutatingDnsCall]

/-- C9: with the dry-run flag set, the four mutating operations send no HTTP
request and succeed — update_record and create_record return the placeholder
record carrying only the requested ttl, delete_firewall_rule and
add_firewall_rule return unit — while the reads run_dns performs (get_domain,
and get_record when the domain exists) are exactly the same calls whether or
not dry-run is set, so dry-run never alters which reads happen and those
reads can still fail. -/
theorem C9_dry_run_suppresses_only_mutations {σ : Type}
    (transport : DnsHttpCall → Except DoError DomainRecordsModifyResp)
    (fw_transport : FwHttpCall → Except DoError FwHttpResponse)
    (client : DigitalOceanDnsClient σ)
    (domain record_name rtype : String) (record : DomainRecord)
    (value : IpAddr) (ttl : Nat) (id : String)
    (inbound_rules : Option (List FirewallInboundRule))
    (outbound_rules : Option (List FirewallOutboundRule)) (s : σ) :
    DigitalOceanDnsClientImpl.update_record transport domain record value ttl true =
      (.ok (dryRunRecord ttl), []) ∧
    DigitalOceanDnsClientImpl.create_record transport domain record_name rtype value
        ttl true = (.ok (dryRunRecord ttl), []) ∧
    DigitalOceanFirewallClientImpl.delete_firewall_rule fw_transport id inbound_rules
        outbound_rules true = (.ok (), []) ∧
    DigitalOceanFirewallClientImpl.add_firewall_rule fw_transport id inbound_rules
        outbound_rules true = (.ok (), []) ∧
    ((run_dns client domain record_name rtype value ttl true s).2.2).filter
        (fun c => !(isMutatingDnsCall c)) =
      ((run_dns client domain record_name rtype value ttl false s).2.2).filter
        (fun c => !(isMutatingDnsCall c)) := by
  refine ⟨rfl, rfl, rfl, rfl, ?_⟩
  rw [run_dns_read_calls, run_dns_read_calls]

/-- C10: a non-dry-run create_record always sends the literal ttl 60 in its
POST body no matter which ttl was requested, and a non-dry-run update_record
sends a PUT body holding only the data field; the caller's ttl argument is
never transmitted by either operation. -/
theorem C10_requested_ttl_never_sent
    (transport : DnsHttpCall → Except DoError DomainRecordsModifyResp)
    (domain record_name rtype : String) (record : DomainRecord)
    (value : IpAddr) (ttl : Nat) :
    (DigitalOceanDnsClientImpl.update_record transport domain record value ttl false).2 =
      [DnsHttpCall.put
        (get_url ("/v2/domains/" ++ domain ++ "/records/" ++ Nat.repr record.id))
        { data := ipToString value }] ∧
    (DigitalOceanDnsClientImpl.create_record transport domain record_name rtype value
        ttl false).2 =
      [DnsHttpCall.post (get_url ("/v2/domains/" ++ domain ++ "/records"))
        { typ := rtype, name := record_name, data := ipToString value, priority := none,
          port := none, ttl := 60, weight := none, flags := none, tag := none }] := by
  constructor
  · simp only [DigitalOceanDnsClientImpl.update_record, Bool.false_eq_true, if_false]
    repeat' split
    all_goals rfl
  · simp only [DigitalOceanDnsClientImpl.create_record, Bool.false_eq_true, if_false]
    repeat' split
    all_goals rfl
